import Mathlib

set_option autoImplicit false

/-!
Verification of the `python-scripts-for-aws` repository: a shallow
embedding of the three cleanup scripts
(`delete-empty-s3-buckets.py`, `delete-unused-ebs-volumes.py`,
`delete-unused-elastic-ips.py`) and proofs about their behaviour.

The scripts talk to the AWS API; here the API responses are modelled as
explicit data (the "world"), calls the scripts issue are modelled as
events in an output trace, and a destructive call mutates the world.
A raised Python/boto exception that a script catches is modelled with
`Option`/explicit branches; an uncaught exception aborts the run and is
modelled with an error value.
-/

/-! ## S3 bucket script (`delete-empty-s3-buckets.py`) -/

/-- The observable state of one S3 bucket, as the script's API calls can
see it: `objectCount` is what `list_objects_v2` reflects (the `Contents`
key is present iff the count is positive), `versioning` is the optional
`Status` field of `get_bucket_versioning`, `locationConstraint` the
optional value returned by `get_bucket_location` (AWS reports `null` for
us-east-1).  `checkError` models the per-bucket API calls in
`get_empty_buckets` raising; `deleteError` models `delete_bucket`
raising for a reason other than the bucket being gone. -/
structure Bucket where
  name : String
  objectCount : Nat
  versioning : Option String
  locationConstraint : Option String
  creationDate : String
  checkError : Bool
  deleteError : Bool
deriving Repr, DecidableEq

/-- The record `get_empty_buckets` appends for an eligible bucket. -/
structure FoundBucket where
  name : String
  region : String
  creationDate : String
deriving Repr, DecidableEq

/-- `versioning_response.get('Status', 'Suspended')` from the source:
a missing `Status` field defaults to `"Suspended"`. -/
def versioningStatus (b : Bucket) : String :=
  b.versioning.getD "Suspended"

/-- `location_response.get('LocationConstraint', 'us-east-1')` followed by
`bucket_region if bucket_region else 'us-east-1'`: a null or empty
location constraint becomes `"us-east-1"`. -/
def bucketRegionOf (b : Bucket) : String :=
  match b.locationConstraint with
  | none => "us-east-1"
  | some r => if r = "" then "us-east-1" else r

/-- The bucket eligibility test exactly as `get_empty_buckets` performs
it: `'Contents' not in list_response` (zero objects) and
`versioning_status != 'Enabled'`. -/
def bucketEligible (b : Bucket) : Bool :=
  b.objectCount == 0 && versioningStatus b != "Enabled"

def toFound (b : Bucket) : FoundBucket :=
  { name := b.name, region := bucketRegionOf b, creationDate := b.creationDate }

/-- `get_empty_buckets`: walks the account's buckets; a per-bucket API
error is caught and skips that bucket (`continue`); otherwise the bucket
is collected when `list_objects_v2` shows no `Contents` and the
versioning status is not `"Enabled"`. -/
def get_empty_buckets (buckets : List Bucket) : List FoundBucket :=
  match buckets with
  | [] => []
  | b :: rest =>
    if b.checkError then get_empty_buckets rest
    else if b.objectCount == 0 then
      if versioningStatus b != "Enabled" then toFound b :: get_empty_buckets rest
      else get_empty_buckets rest
    else get_empty_buckets rest

/-- Output/API events of `delete_buckets`. -/
inductive BEvent where
  | noBuckets
  | dryRunReport (name region : String)
  | listObjectsCall (name : String)
  | warnSkipNonEmpty (name : String)
  | deleteBucketCall (name : String)
  | deletedMsg (name region : String)
  | failedMsg (name : String)
  | deletedSummary (n : Nat)
deriving Repr, DecidableEq

def BEvent.isDeleteCall : BEvent → Bool
  | .deleteBucketCall _ => true
  | _ => false

/-- The account's live buckets, looked up by name. -/
def bucketLookup (w : List Bucket) (name : String) : Option Bucket :=
  w.find? (fun b => b.name == name)

def removeBucket (w : List Bucket) (name : String) : List Bucket :=
  w.filter (fun b => b.name != name)

/-- One iteration of the execute-mode loop body of `delete_buckets`:
re-list the bucket's objects (`list_objects_v2`, which raises if the
bucket is gone — caught by the enclosing `try`, printing the failure
message), skip if it now has objects, otherwise issue `delete_bucket`.
Returns (events, world after, deleted-count increment). -/
def deleteOneBucket (w : List Bucket) (fb : FoundBucket) :
    List BEvent × List Bucket × Nat :=
  match bucketLookup w fb.name with
  | none => ([.listObjectsCall fb.name, .failedMsg fb.name], w, 0)
  | some b =>
    if b.objectCount > 0 then
      ([.listObjectsCall fb.name, .warnSkipNonEmpty fb.name], w, 0)
    else if b.deleteError then
      ([.listObjectsCall fb.name, .deleteBucketCall fb.name, .failedMsg fb.name], w, 0)
    else
      ([.listObjectsCall fb.name, .deleteBucketCall fb.name,
        .deletedMsg fb.name fb.region], removeBucket w fb.name, 1)

def deleteBucketsLoop (w : List Bucket) (bl : List FoundBucket) :
    List BEvent × List Bucket × Nat :=
  match bl with
  | [] => ([], w, 0)
  | fb :: rest =>
    let s1 := deleteOneBucket w fb
    let s2 := deleteBucketsLoop s1.2.1 rest
    (s1.1 ++ s2.1, s2.2.1, s1.2.2 + s2.2.2)

/-- `delete_buckets(bucket_list, dry_run)`: early return on an empty
list; in dry-run mode only a report line per bucket; in execute mode the
per-bucket loop followed by the deleted-count summary print. -/
def delete_buckets (w : List Bucket) (bl : List FoundBucket) (dry_run : Bool) :
    List BEvent × List Bucket :=
  if bl.isEmpty then ([.noBuckets], w)
  else if dry_run then
    (bl.map (fun fb => .dryRunReport fb.name fb.region), w)
  else
    let s := deleteBucketsLoop w bl
    (s.1 ++ [.deletedSummary s.2.2], s.2.1)

/-- Data-dependent output lines of the bucket script's `main`. -/
inductive MEvent where
  | foundCount (n : Nat)
  | bucketLine (name region date : String)
  | totalLine (n : Nat)
  | noEmptyBuckets
  | sub (e : BEvent)
deriving Repr, DecidableEq

/-- `main` of the bucket script: scan, list the findings, then always
call `delete_buckets(..., dry_run=True)`. -/
def bucketMain (w : List Bucket) : List MEvent × List Bucket :=
  let found := get_empty_buckets w
  if found.isEmpty then ([.noEmptyBuckets], w)
  else
    let d := delete_buckets w found true
    ([.foundCount found.length]
      ++ found.map (fun fb => .bucketLine fb.name fb.region fb.creationDate)
      ++ [.totalLine found.length] ++ d.1.map .sub, d.2)

/-! ## EBS volume script (`delete-unused-ebs-volumes.py`) -/

/-- One EBS volume as `ec2.volumes.all()` describes it. -/
structure Volume where
  id : String
  state : String
  attachments : List String
deriving Repr, DecidableEq

/-- The volume eligibility test exactly as `get_unused_volumes` performs
it: `volume.state == 'available'` and `not attachments`. -/
def volumeEligible (v : Volume) : Bool :=
  v.state == "available" && v.attachments == []

/-- The `volume.id.replace` call from the source: every non-breaking
space character (U+00A0) in the id is replaced by a plain space.  The
pattern is a single character, so the substring replace is a character
map. -/
def sanitizeVolumeId (s : String) : String :=
  String.mk (s.data.map (fun c => if c = '\u00A0' then ' ' else c))

/-- `get_unused_volumes(region_name)`: there is NO try/except around the
enumeration, so a raised API error propagates out of the function
(modelled by the input being `none` and the result being `none`). -/
def get_unused_volumes (resp : Option (List Volume)) : Option (List String) :=
  match resp with
  | none => none
  | some vols =>
    some (vols.filterMap (fun v =>
      if v.state == "available" then
        if v.attachments == [] then some (sanitizeVolumeId v.id) else none
      else none))

/-- Python runtime errors the volume script can raise on its own. -/
inductive PyErr where
  | nameErrorDryRun
  | typeErrorKwarg
deriving Repr, DecidableEq

/-- Output/API events of `delete_volumes`. -/
inductive VEvent where
  | dryRunReport (vid : String)
  | deletingMsg (vid : String)
  | deleteVolumeCall (vid : String)
deriving Repr, DecidableEq

def VEvent.isDeleteCall : VEvent → Bool
  | .deleteVolumeCall _ => true
  | _ => false

/-- The module-level bindings of `delete-unused-ebs-volumes.py`: the name
`dry_run` that `delete_volumes` reads is bound nowhere in the file. -/
def volumeScriptGlobals : List (String × Bool) := []

/-- Evaluating a global name in the volume script: an unbound name
raises `NameError` (here: the only name ever looked up is `dry_run`). -/
def lookupGlobal (n : String) : Except PyErr Bool :=
  match volumeScriptGlobals.lookup n with
  | some v => .ok v
  | none => .error .nameErrorDryRun

/-- The loop body of `delete_volumes`: each iteration first evaluates
`dry_run`, which is unbound, so the first iteration raises. -/
def deleteVolumesLoop (vols : List String) : Except PyErr (List VEvent) :=
  match vols with
  | [] => .ok []
  | v :: rest =>
    match lookupGlobal "dry_run" with
    | .error e => .error e
    | .ok true =>
      match deleteVolumesLoop rest with
      | .error e => .error e
      | .ok es => .ok (.dryRunReport v :: es)
    | .ok false =>
      match deleteVolumesLoop rest with
      | .error e => .error e
      | .ok es => .ok (.deletingMsg v :: .deleteVolumeCall v :: es)

/-- `delete_volumes(volumes, region_name)` as defined in the source;
note the signature has no mode parameter at all. -/
def delete_volumes (vols : List String) (_region : String) :
    Except PyErr (List VEvent) :=
  deleteVolumesLoop vols

/-- The parameter names of `delete_volumes` in the source. -/
def delete_volumes_params : List String := ["volumes", "region_name"]

/-- Calling `delete_volumes` with keyword arguments: Python rejects a
keyword that is not a parameter with a `TypeError` before the body runs. -/
def callDeleteVolumes (vols : List String) (region : String)
    (kwargs : List String) : Except PyErr (List VEvent) :=
  if kwargs.all (fun k => delete_volumes_params.contains k) then
    delete_volumes vols region
  else .error .typeErrorKwarg

/-- The keyword arguments `main` passes:
`delete_volumes(unused_volumes, region_name=region, dry_run=True)`. -/
def mainDeleteVolumesKwargs : List String := ["region_name", "dry_run"]

/-- Errors that abort the volume script's `main` (both uncaught). -/
inductive VErr where
  | scanError (region : String)
  | pyErr (e : PyErr)
deriving Repr, DecidableEq

/-- Output lines of the volume script's `main`. -/
inductive VMEvent where
  | checkingRegion (region : String)
  | noUnused (region : String)
  | vol (e : VEvent)
deriving Repr, DecidableEq

/-- The region loop of the volume script's `main`: prints the checking
line, enumerates (an enumeration error propagates and aborts the run),
and on a non-empty result calls `delete_volumes` with the `dry_run=True`
keyword (which its signature rejects, also aborting the run). -/
def volumesMainLoop (env : String → Option (List Volume)) (rs : List String) :
    List VMEvent × Option VErr :=
  match rs with
  | [] => ([], none)
  | r :: rest =>
    match get_unused_volumes (env r) with
    | none => ([.checkingRegion r], some (.scanError r))
    | some [] =>
      let s := volumesMainLoop env rest
      (.checkingRegion r :: .noUnused r :: s.1, s.2)
    | some (v :: vs) =>
      match callDeleteVolumes (v :: vs) r mainDeleteVolumesKwargs with
      | .error e => ([.checkingRegion r], some (.pyErr e))
      | .ok ves =>
        let s := volumesMainLoop env rest
        (.checkingRegion r :: (ves.map VMEvent.vol ++ s.1), s.2)

/-! ## Elastic IP script (`delete-unused-elastic-ips.py`) -/

/-- One Elastic IP address as `describe_addresses` (domain `vpc`)
reports it; optional fields model the optional keys of the response. -/
structure Address where
  publicIp : Option String
  allocationId : String
  associationId : Option String
  networkInterfaceId : Option String
  privateIpAddress : Option String
deriving Repr, DecidableEq

/-- The record `get_unused_elastic_ips` builds for an unassociated
address (`address.get('PublicIp', 'Unknown')` etc.). -/
structure FoundIp where
  publicIp : String
  allocationId : String
  networkInterfaceId : Option String
  privateIpAddress : Option String
deriving Repr, DecidableEq

def toFoundIp (a : Address) : FoundIp :=
  { publicIp := a.publicIp.getD "Unknown", allocationId := a.allocationId,
    networkInterfaceId := a.networkInterfaceId,
    privateIpAddress := a.privateIpAddress }

/-- The elastic IP eligibility test exactly as `get_unused_elastic_ips`
performs it: `'AssociationId' not in address`. -/
def eipEligible (a : Address) : Bool :=
  a.associationId.isNone

/-- `get_unused_elastic_ips(region_name)`: the whole enumeration is
wrapped in try/except, so a raised API error (`resp = none`) is caught,
logged and turned into an empty result. -/
def get_unused_elastic_ips (resp : Option (List Address)) : List FoundIp :=
  match resp with
  | none => []
  | some addrs =>
    addrs.filterMap (fun a =>
      if a.associationId.isNone then some (toFoundIp a) else none)

/-- Why a `release_address` call raises: the allocation no longer exists
(the AWS "InvalidAllocationID.NotFound" case, i.e. already released), or
any other provider error. -/
inductive RelErr where
  | notFound
  | providerError
deriving Repr, DecidableEq

/-- The world the elastic IP script acts on: the region list
`describe_regions` returns, the per-region `describe_addresses` response
(`none` models the call raising), and the allocation ids for which
`release_address` raises a provider error even though they exist. -/
structure EipWorld where
  regions : List String
  addrs : List (String × Option (List Address))
  releaseFailIds : List String
deriving Repr, DecidableEq

def describeAddresses (w : EipWorld) (r : String) : Option (List Address) :=
  (w.addrs.lookup r).getD (some [])

def regionAddrs (w : EipWorld) (r : String) : List Address :=
  (describeAddresses w r).getD []

/-- `release_address(AllocationId=...)`: succeeds and removes the
address from the world, or raises. -/
def release_address (w : EipWorld) (r allocId : String) :
    Except RelErr EipWorld :=
  if (regionAddrs w r).any (fun a => a.allocationId == allocId) then
    if w.releaseFailIds.contains allocId then .error .providerError
    else
      .ok { w with addrs := w.addrs.map (fun p =>
        if p.1 == r then
          (p.1, p.2.map (fun l => l.filter (fun a => a.allocationId != allocId)))
        else p) }
  else .error .notFound

/-- Output/API events of the elastic IP script. -/
inductive EEvent where
  | noIpsToRelease (region : String)
  | dryRunReport (publicIp allocId region : String)
  | describeCall (region : String)
  | releaseCall (allocId : String)
  | releasedMsg (publicIp allocId region : String)
  | failedRelease (publicIp : String)
  | releasedSummary (region : String) (n : Nat)
  | checkingRegion (region : String)
  | foundInRegion (region : String) (n : Nat)
  | ipLine (publicIp privateIp : String)
  | noUnusedInRegion (region : String)
  | scanComplete (total : Nat)
  | savingsLine (total : Nat)
deriving Repr, DecidableEq

def EEvent.isReleaseCall : EEvent → Bool
  | .releaseCall _ => true
  | _ => false

def EEvent.isDescribeCall : EEvent → Bool
  | .describeCall _ => true
  | _ => false

/-- The execute-mode loop of `release_elastic_ips`: each address gets a
`release_address` call with no prior re-check; a raised error (already
released included) is caught and printed as a failure, a success is
printed and counted.  Returns (events, world after, released count). -/
def releaseLoop (w : EipWorld) (r : String) (ips : List FoundIp) :
    List EEvent × EipWorld × Nat :=
  match ips with
  | [] => ([], w, 0)
  | ip :: rest =>
    match release_address w r ip.allocationId with
    | .ok w2 =>
      let s := releaseLoop w2 r rest
      (EEvent.releaseCall ip.allocationId
         :: EEvent.releasedMsg ip.publicIp ip.allocationId r :: s.1,
       s.2.1, s.2.2 + 1)
    | .error _ =>
      let s := releaseLoop w r rest
      (EEvent.releaseCall ip.allocationId
         :: EEvent.failedRelease ip.publicIp :: s.1,
       s.2.1, s.2.2)

/-- `release_elastic_ips(ip_list, region_name, dry_run)`: early return
on an empty list; dry-run only reports; execute mode runs the release
loop and prints the released-count summary. -/
def release_elastic_ips (w : EipWorld) (ips : List FoundIp) (region : String)
    (dry_run : Bool) : List EEvent × EipWorld :=
  if ips.isEmpty then ([.noIpsToRelease region], w)
  else if dry_run then
    (ips.map (fun ip => .dryRunReport ip.publicIp ip.allocationId region), w)
  else
    let s := releaseLoop w region ips
    (s.1 ++ [.releasedSummary region s.2.2], s.2.1)

/-- The region loop of the elastic IP script's `main`: per region, scan
(errors caught inside `get_unused_elastic_ips`), list findings, and call
`release_elastic_ips(..., dry_run=True)`.  Returns
(events, world after, running total of unused addresses). -/
def eipMainLoop (w : EipWorld) (rs : List String) :
    List EEvent × EipWorld × Nat :=
  match rs with
  | [] => ([], w, 0)
  | r :: rest =>
    let unused := get_unused_elastic_ips (describeAddresses w r)
    if unused.isEmpty then
      let s := eipMainLoop w rest
      (EEvent.checkingRegion r :: EEvent.describeCall r
         :: EEvent.noUnusedInRegion r :: s.1, s.2.1, s.2.2)
    else
      let d := release_elastic_ips w unused r true
      let s := eipMainLoop d.2 rest
      (EEvent.checkingRegion r :: EEvent.describeCall r
         :: EEvent.foundInRegion r unused.length
         :: (unused.map (fun ip => EEvent.ipLine ip.publicIp (ip.privateIpAddress.getD "N/A"))
             ++ d.1 ++ s.1),
       s.2.1, s.2.2 + unused.length)

/-- `main` of the elastic IP script: the region loop followed by the
scan-complete line and, when anything was found, the savings estimate
(a fixed per-address rate applied to the total). -/
def eipMain (w : EipWorld) : List EEvent × EipWorld :=
  let s := eipMainLoop w w.regions
  (s.1 ++ [.scanComplete s.2.2]
     ++ (if s.2.2 > 0 then [.savingsLine s.2.2] else []), s.2.1)

/-- The per-region scan results of a run, as a function of the region
list and the per-region `describe_addresses` behaviour. -/
def eipScanResults (env : String → Option (List Address)) (rs : List String) :
    List (String × List FoundIp) :=
  rs.map (fun r => (r, get_unused_elastic_ips (env r)))

/-! ## Concrete fixtures used in closed theorems -/

/-- An empty bucket whose versioning was never configured. -/
def bNoStatus : Bucket :=
  { name := "logs-2019", objectCount := 0, versioning := none,
    locationConstraint := none, creationDate := "2019-01-01",
    checkError := false, deleteError := false }

/-- An empty bucket with versioning suspended, as the scan sees it. -/
def bScan : Bucket :=
  { name := "archive-prod", objectCount := 0, versioning := some "Suspended",
    locationConstraint := none, creationDate := "2018-05-05",
    checkError := false, deleteError := false }

/-- The same bucket after versioning was enabled between scan time and
execute time: still empty, but no longer eligible. -/
def bMut : Bucket := { bScan with versioning := some "Enabled" }

/-- An available, unattached volume. -/
def volAvail : Volume :=
  { id := "vol-0a1b", state := "available", attachments := [] }

/-- A per-region volume enumeration in which region-a's API call raises
and region-b answers normally. -/
def volEnvA : String → Option (List Volume) :=
  fun r => if r = "region-a" then none else some [volAvail]

/-- An unassociated elastic IP as the scan records it. -/
def ipFound : FoundIp :=
  { publicIp := "52.10.20.30", allocationId := "eipalloc-0f00",
    networkInterfaceId := none, privateIpAddress := none }

/-- A world in which the allocation behind `ipFound` is already gone
(released by someone else between scan and execute). -/
def wGone : EipWorld :=
  { regions := ["eu-west-1"], addrs := [("eu-west-1", some [])],
    releaseFailIds := [] }

theorem get_empty_buckets_eq_filter (buckets : List Bucket) :
    get_empty_buckets buckets
      = (buckets.filter (fun b => !b.checkError && bucketEligible b)).map toFound := by
  induction buckets with
  | nil => rfl
  | cons b rest ih =>
    by_cases hc : b.checkError
    · simp [get_empty_buckets, List.filter, hc, ih]
    · by_cases ho : b.objectCount == 0
      · by_cases hv : versioningStatus b != "Enabled"
        · simp [get_empty_buckets, List.filter, hc, ho, hv, bucketEligible, ih]
        · simp [get_empty_buckets, List.filter, hc, ho, hv, bucketEligible, ih]
      · simp [get_empty_buckets, List.filter, hc, ho, bucketEligible, ih]

theorem get_unused_volumes_eq_filter (vols : List Volume) :
    get_unused_volumes (some vols)
      = some ((vols.filter volumeEligible).map (fun v => sanitizeVolumeId v.id)) := by
  simp only [get_unused_volumes, Option.some.injEq]
  induction vols with
  | nil => rfl
  | cons v rest ih =>
    by_cases hs : v.state == "available"
    · by_cases ha : v.attachments == ([] : List String)
      · simp [List.filterMap, List.filter, hs, ha, volumeEligible] at ih ⊢
        exact ih
      · simp [List.filterMap, List.filter, hs, ha, volumeEligible] at ih ⊢
        exact ih
    · simp [List.filterMap, List.filter, hs, volumeEligible] at ih ⊢
      exact ih

theorem get_unused_eips_eq_filter (addrs : List Address) :
    get_unused_elastic_ips (some addrs)
      = (addrs.filter eipEligible).map toFoundIp := by
  induction addrs with
  | nil => rfl
  | cons a rest ih =>
    by_cases hn : a.associationId.isNone
    · simp [get_unused_elastic_ips, List.filterMap, List.filter, hn, eipEligible] at ih ⊢
      exact ih
    · simp [get_unused_elastic_ips, List.filterMap, List.filter, hn, eipEligible] at ih ⊢
      exact ih

theorem delete_buckets_dry_world (w : List Bucket) (bl : List FoundBucket) :
    (delete_buckets w bl true).2 = w := by
  by_cases h : bl.isEmpty <;> simp [delete_buckets, h]

theorem release_eips_dry_world (w : EipWorld) (ips : List FoundIp) (r : String) :
    (release_elastic_ips w ips r true).2 = w := by
  by_cases h : ips.isEmpty <;> simp [release_elastic_ips, h]

theorem eipMainLoop_world (w : EipWorld) (rs : List String) :
    (eipMainLoop w rs).2.1 = w := by
  induction rs generalizing w with
  | nil => rfl
  | cons r rest ih =>
    by_cases h : (get_unused_elastic_ips (describeAddresses w r)).isEmpty
    · simp [eipMainLoop, h, ih]
    · simp [eipMainLoop, h, release_eips_dry_world, ih]

theorem bucketMain_world (w : List Bucket) : (bucketMain w).2 = w := by
  by_cases h : (get_empty_buckets w).isEmpty
  · simp [bucketMain, h]
  · simp [bucketMain, h, delete_buckets_dry_world]

theorem eipMain_world (w : EipWorld) : (eipMain w).2 = w := by
  simp [eipMain, eipMainLoop_world]

/-! ## Claim theorems -/

/-- C4: for every bucket candidate, the bucket eligibility predicate
returns true iff the bucket contains zero objects and its versioning
status is not "Enabled"; and `get_empty_buckets` collects exactly the
error-free buckets satisfying the predicate. -/
theorem c4_bucket_eligibility :
    (∀ b : Bucket,
      bucketEligible b = true ↔ (b.objectCount = 0 ∧ b.versioning ≠ some "Enabled"))
    ∧ (∀ w : List Bucket,
      get_empty_buckets w
        = (w.filter (fun b => !b.checkError && bucketEligible b)).map toFound) := by
  refine ⟨fun b => ?_, get_empty_buckets_eq_filter⟩
  cases hv : b.versioning <;>
    simp [bucketEligible, versioningStatus, hv]

/-- C5: for every volume candidate, the volume eligibility predicate
returns true iff the volume's state is "available" and it has zero
attachments; and `get_unused_volumes` collects exactly the (sanitized)
ids of the volumes satisfying the predicate. -/
theorem c5_volume_eligibility :
    (∀ v : Volume,
      volumeEligible v = true ↔ (v.state = "available" ∧ v.attachments = []))
    ∧ (∀ vols : List Volume,
      get_unused_volumes (some vols)
        = some ((vols.filter volumeEligible).map (fun v => sanitizeVolumeId v.id))) := by
  refine ⟨fun v => ?_, get_unused_volumes_eq_filter⟩
  simp [volumeEligible]

/-- C6: for every elastic IP candidate, the eligibility predicate
returns true iff the address has no `AssociationId`; and
`get_unused_elastic_ips` collects exactly the addresses satisfying the
predicate (an enumeration error yields the empty list). -/
theorem c6_eip_eligibility :
    (∀ a : Address, eipEligible a = true ↔ a.associationId = none)
    ∧ (∀ addrs : List Address,
      get_unused_elastic_ips (some addrs) = (addrs.filter eipEligible).map toFoundIp)
    ∧ get_unused_elastic_ips none = [] := by
  refine ⟨fun a => ?_, get_unused_eips_eq_filter, rfl⟩
  simp [eipEligible, Option.isNone_iff_eq_none]

/-- C10: a bucket whose versioning configuration has no `Status` field
is treated as having status "Suspended", so it is eligible exactly when
it is empty. -/
theorem c10_versioning_default (b : Bucket) (h : b.versioning = none) :
    versioningStatus b = "Suspended"
    ∧ (bucketEligible b = true ↔ b.objectCount = 0) := by
  constructor
  · simp [versioningStatus, h]
  · simp [bucketEligible, versioningStatus, h]

theorem c10_versioning_default_witness :
    versioningStatus bNoStatus = "Suspended"
    ∧ (bucketEligible bNoStatus = true ↔ bNoStatus.objectCount = 0) :=
  c10_versioning_default bNoStatus rfl

theorem releaseLoop_no_describe (ips : List FoundIp) (w : EipWorld) (r : String) :
    ((releaseLoop w r ips).1.all (fun e => !e.isDescribeCall)) = true := by
  induction ips generalizing w with
  | nil => rfl
  | cons ip rest ih =>
    cases h : release_address w r ip.allocationId with
    | ok w2 => simpa [releaseLoop, h, EEvent.isDescribeCall] using ih w2
    | error e => simpa [releaseLoop, h, EEvent.isDescribeCall] using ih w

/-- C1: in dry-run mode the bucket and elastic IP destroy steps issue no
destroy call and leave the world untouched, producing only dry-run
report lines; the volume destroy step, however, cannot even be run in
dry-run mode: `main`'s call passes a `dry_run=True` keyword the function
does not accept (`TypeError`), and a direct call reads the unbound
global `dry_run` (`NameError`) — so no dry-run report is produced for
volumes, although no destroy call is issued either. -/
theorem c1_dry_run_no_destroy :
    (∀ (w : List Bucket) (bl : List FoundBucket),
      (delete_buckets w bl true).1.all (fun e => !e.isDeleteCall) = true
      ∧ (delete_buckets w bl true).2 = w)
    ∧ (∀ (w : EipWorld) (ips : List FoundIp) (r : String),
      (release_elastic_ips w ips r true).1.all (fun e => !e.isReleaseCall) = true
      ∧ (release_elastic_ips w ips r true).2 = w)
    ∧ callDeleteVolumes ["vol-001"] "us-east-1" mainDeleteVolumesKwargs
        = .error .typeErrorKwarg
    ∧ delete_volumes ["vol-001"] "us-east-1" = .error .nameErrorDryRun := by
  refine ⟨fun w bl => ⟨?_, delete_buckets_dry_world w bl⟩,
          fun w ips r => ⟨?_, release_eips_dry_world w ips r⟩, rfl, rfl⟩
  · by_cases h : bl.isEmpty <;>
      simp [delete_buckets, h, BEvent.isDeleteCall, List.all_eq_true]
  · by_cases h : ips.isEmpty <;>
      simp [release_elastic_ips, h, EEvent.isReleaseCall, List.all_eq_true]

/-- C2 is false as stated: the bucket `bScan` is eligible at scan time,
its versioning is then enabled (`bMut`) so the full eligibility
predicate is false immediately before the destroy call, yet execute
mode still deletes it — the execute-time re-check covers only
emptiness, not the full predicate. -/
theorem c2_counterexample :
    get_empty_buckets [bScan] = [toFound bScan]
    ∧ bucketEligible bMut = false
    ∧ (delete_buckets [bMut] [toFound bScan] false).1
        = [.listObjectsCall "archive-prod", .deleteBucketCall "archive-prod",
           .deletedMsg "archive-prod" "us-east-1", .deletedSummary 1]
    ∧ (delete_buckets [bMut] [toFound bScan] false).2 = [] := by
  exact ⟨rfl, rfl, rfl, rfl⟩

/-- C2 (amended): a bucket `Deleted` outcome occurs only after a fresh
emptiness check immediately before the destroy call (the step always
begins with `list_objects_v2` and deletes only a currently-present,
currently-empty bucket), but the versioning half of the predicate is
not re-checked; the volume destroy step never produces a delete call at
all (it fails before its loop body completes); and the elastic IP
execute path issues release calls with no fresh eligibility check —
scan-time eligibility alone authorizes the release. -/
theorem c2_amended :
    (∀ (w : List Bucket) (fb : FoundBucket) (name region : String),
      BEvent.deletedMsg name region ∈ (deleteOneBucket w fb).1 →
      ∃ b, bucketLookup w fb.name = some b
        ∧ b.objectCount = 0 ∧ b.deleteError = false)
    ∧ (∀ (w : List Bucket) (fb : FoundBucket),
      ∃ rest, (deleteOneBucket w fb).1 = BEvent.listObjectsCall fb.name :: rest)
    ∧ (∀ (vols : List String) (r : String) (es : List VEvent),
      delete_volumes vols r = .ok es → es = [])
    ∧ (∀ (w : EipWorld) (ips : List FoundIp) (r : String),
      (release_elastic_ips w ips r false).1.all (fun e => !e.isDescribeCall) = true) := by
  refine ⟨?_, ?_, ?_, ?_⟩
  · intro w fb name region h
    cases hl : bucketLookup w fb.name with
    | none => simp [deleteOneBucket, hl] at h
    | some b =>
      by_cases ho : b.objectCount > 0
      · simp [deleteOneBucket, hl, ho] at h
      · by_cases hd : b.deleteError
        · simp [deleteOneBucket, hl, ho, hd] at h
        · exact ⟨b, rfl, by omega, by simpa using hd⟩
  · intro w fb
    cases hl : bucketLookup w fb.name with
    | none =>
      exact ⟨[BEvent.failedMsg fb.name], by simp [deleteOneBucket, hl]⟩
    | some b =>
      by_cases ho : b.objectCount > 0
      · exact ⟨[BEvent.warnSkipNonEmpty fb.name],
          by simp [deleteOneBucket, hl, ho]⟩
      · by_cases hd : b.deleteError
        · exact ⟨[BEvent.deleteBucketCall fb.name, BEvent.failedMsg fb.name],
            by simp [deleteOneBucket, hl, ho, hd]⟩
        · exact ⟨[BEvent.deleteBucketCall fb.name,
            BEvent.deletedMsg fb.name fb.region],
            by simp [deleteOneBucket, hl, ho, hd]⟩
  · intro vols r es h
    cases vols with
    | nil =>
      simp [delete_volumes, deleteVolumesLoop] at h
      exact h
    | cons v rest =>
      simp [delete_volumes, deleteVolumesLoop, lookupGlobal, volumeScriptGlobals] at h
  · intro w ips r
    by_cases h : ips.isEmpty
    · simp [release_elastic_ips, h, EEvent.isDescribeCall]
    · simpa [release_elastic_ips, h, EEvent.isDescribeCall, List.all_append]
        using releaseLoop_no_describe ips w r

theorem c2_amended_witness :
    ∃ b, bucketLookup [bScan] "archive-prod" = some b
      ∧ b.objectCount = 0 ∧ b.deleteError = false :=
  c2_amended.1 [bScan] (toFound bScan) "archive-prod" "us-east-1" (by decide)

/-- C3: the claim describes the intended design; the code violates it.
`delete_volumes` has no mode parameter at all, the `dry_run=True`
keyword that `main` passes is rejected with a `TypeError`, and the
function body reads the module-global name `dry_run`, which is bound
nowhere, raising a `NameError` on any non-empty volume list. -/
theorem c3_mode_not_explicit :
    ("dry_run" ∉ delete_volumes_params)
    ∧ mainDeleteVolumesKwargs = ["region_name", "dry_run"]
    ∧ callDeleteVolumes ["vol-001"] "eu-west-1" mainDeleteVolumesKwargs
        = .error .typeErrorKwarg
    ∧ delete_volumes ["vol-001"] "eu-west-1" = .error .nameErrorDryRun
    ∧ lookupGlobal "dry_run" = .error .nameErrorDryRun := by
  exact ⟨by decide, rfl, rfl, rfl, rfl⟩

/-- C7 is false as stated: when region-a's volume enumeration raises,
the volume script's `main` aborts at region-a — region-b, which has a
scannable unused volume, is never scanned. -/
theorem c7_counterexample :
    volumesMainLoop volEnvA ["region-a", "region-b"]
      = ([.checkingRegion "region-a"], some (.scanError "region-a"))
    ∧ VMEvent.checkingRegion "region-b"
        ∉ (volumesMainLoop volEnvA ["region-a", "region-b"]).1
    ∧ get_unused_volumes (volEnvA "region-b") = some [sanitizeVolumeId volAvail.id] := by
  exact ⟨rfl, by decide, rfl⟩

/-- C7 (amended): for the elastic IP script a region's enumeration
failure is isolated — that region yields an empty finding list and every
other region's scan results are unchanged; for the volume script
`get_unused_volumes` has no error handling, so an enumeration failure
aborts the run at that region. -/
theorem c7_amended :
    (∀ (env envF : String → Option (List Address)) (r : String) (rs : List String),
      (∀ s, s ≠ r → envF s = env s) → envF r = none →
      eipScanResults envF rs
        = rs.map (fun s => (s, if s = r then [] else get_unused_elastic_ips (env s))))
    ∧ (∀ (env : String → Option (List Volume)) (r : String) (rs : List String),
      env r = none →
      volumesMainLoop env (r :: rs) = ([.checkingRegion r], some (.scanError r))) := by
  constructor
  · intro env envF r rs hagree herr
    induction rs with
    | nil => rfl
    | cons s rest ih =>
      simp only [eipScanResults, List.map] at ih ⊢
      refine congrArg₂ _ ?_ ih
      by_cases hs : s = r
      · subst hs
        simp [herr, get_unused_elastic_ips]
      · simp [hs, hagree s hs]
  · intro env r rs herr
    simp [volumesMainLoop, get_unused_volumes, herr]

theorem c7_amended_witness :
    volumesMainLoop volEnvA ("region-a" :: ["region-b"])
      = ([.checkingRegion "region-a"], some (.scanError "region-a")) :=
  c7_amended.2 volEnvA "region-a" ["region-b"] rfl

/-- C8 is false as stated: releasing an elastic IP whose allocation is
already gone raises, the script catches the exception and records a
failure line (and does not count it as released) — the idempotent
"already gone" failure is recorded as Failed, not as a success. -/
theorem c8_counterexample :
    release_address wGone "eu-west-1" "eipalloc-0f00" = .error .notFound
    ∧ (release_elastic_ips wGone [ipFound] "eu-west-1" false).1
        = [.releaseCall "eipalloc-0f00", .failedRelease "52.10.20.30",
           .releasedSummary "eu-west-1" 0] := by
  exact ⟨rfl, rfl⟩

/-- C8 (amended): every destroy-call failure — the already-gone case
included — is recorded as a failure and not counted as a success; only
a destroy call that returns success is recorded as deleted/released.
The same holds for the bucket script: a bucket that is already gone
makes the re-listing raise, and the candidate is recorded as failed. -/
theorem c8_amended :
    (∀ (w : EipWorld) (r : String) (ip : FoundIp) (e : RelErr),
      release_address w r ip.allocationId = .error e →
      (releaseLoop w r [ip]).1
          = [.releaseCall ip.allocationId, .failedRelease ip.publicIp]
        ∧ (releaseLoop w r [ip]).2.2 = 0)
    ∧ (∀ (w : EipWorld) (r : String) (ip : FoundIp) (w2 : EipWorld),
      release_address w r ip.allocationId = .ok w2 →
      (releaseLoop w r [ip]).1
          = [.releaseCall ip.allocationId, .releasedMsg ip.publicIp ip.allocationId r]
        ∧ (releaseLoop w r [ip]).2.2 = 1)
    ∧ (∀ (w : List Bucket) (fb : FoundBucket),
      bucketLookup w fb.name = none →
      (deleteOneBucket w fb).1 = [.listObjectsCall fb.name, .failedMsg fb.name]) := by
  refine ⟨?_, ?_, ?_⟩
  · intro w r ip e h
    simp [releaseLoop, h]
  · intro w r ip w2 h
    simp [releaseLoop, h]
  · intro w fb h
    simp [deleteOneBucket, h]

theorem c8_amended_witness :
    (releaseLoop wGone "eu-west-1" [ipFound]).1
        = [.releaseCall ipFound.allocationId, .failedRelease ipFound.publicIp]
      ∧ (releaseLoop wGone "eu-west-1" [ipFound]).2.2 = 0 :=
  c8_amended.1 wGone "eu-west-1" ipFound .notFound rfl

/-- C9: both pipelines run in dry-run mode leave the world exactly as
they found it, so a second run against the unchanged fixture produces
identical output. -/
theorem c9_dry_run_idempotent :
    (∀ w : List Bucket,
      (bucketMain w).2 = w
      ∧ (bucketMain ((bucketMain w).2)).1 = (bucketMain w).1)
    ∧ (∀ w : EipWorld,
      (eipMain w).2 = w
      ∧ (eipMain ((eipMain w).2)).1 = (eipMain w).1) := by
  refine ⟨fun w => ⟨bucketMain_world w, by rw [bucketMain_world]⟩,
          fun w => ⟨eipMain_world w, by rw [eipMain_world]⟩⟩
